import Mathlib

/-!
Shallow embedding of the democloud backend (src/src/main.rs).

Modelling conventions:
- Byte buffers (multipart chunks, file contents) are modelled as `String`s:
  the code decodes scalar chunks with `String::from_utf8(..).unwrap()` and
  writes file chunks verbatim, so concatenation and equality of buffers are
  preserved by this abstraction.
- The SQLite table `tracks` is a list of rows in insertion order (`DB`);
  `INSERT` appends, `SELECT ... WHERE` filters, `query_row` takes the first
  match, `DELETE ... WHERE` filters out the matching rows.
- The upload directory is an association list from filename to file content
  (`FS`); `File::create` plus the chunk-write loop installs the final content,
  `fs::read` looks up, `fs::remove_file` deletes the entry.
- Fallible environment effects (mutex poisoning, statement prepare/execute
  failure, filesystem errors) are injected through explicit `..Env` records of
  Booleans: `true` means the corresponding call succeeds.  A handler that hits
  an `unwrap`/`expect` on a failed call is modelled as returning the dedicated
  `panics` outcome rather than an HTTP response.
- `stream_audio` and `stream_demo` observe the filesystem twice (an existence
  check, then a read); the two observations are separate parameters because an
  external actor may change the directory between the two system calls.
- The per-request `demo_id` (a v4 UUID in the code) is passed in as a string
  parameter; freshness is a hypothesis where a claim needs it.
- Chunk-write failure inside the file part is modelled as failing at the first
  chunk, after `File::create` has already created the (empty) file.
-/

/-- One multipart part: a declared field name and the data chunks delivered
for it, in arrival order. -/
structure MPart where
  name : String
  chunks : List String
deriving DecidableEq, Repr

/-- One row of the `tracks` table (the `id` primary key is never read by any
handler and is omitted). -/
structure Row where
  artist : String
  title : String
  file_path : String
  demo_id : String
  user_id : String
deriving DecidableEq, Repr

/-- The `tracks` table in insertion order. -/
abbrev DB := List Row

/-- The upload directory: filename to file content. -/
abbrev FS := List (String × String)

/-- The serialized track record returned by `get_tracks` and
`get_demo_details` (struct `Track` in the source). -/
structure Track where
  artist : String
  title : String
  file_url : String
  demo_id : String
deriving DecidableEq, Repr

def fsRead (fs : FS) (fn : String) : Option String :=
  (fs.find? (fun e => e.1 == fn)).map (fun e => e.2)

def fsExists (fs : FS) (fn : String) : Bool :=
  (fsRead fs fn).isSome

def fsWrite (fs : FS) (fn : String) (c : String) : FS :=
  (fn, c) :: fs.filter (fun e => e.1 != fn)

def fsRemove (fs : FS) (fn : String) : FS :=
  fs.filter (fun e => e.1 != fn)

/-- Models the external sanitize-filename crate (a dependency, not repository
code): with default options it removes path-hostile characters (path
separators, wildcards, quotes, control characters) from the name.  No claim
depends on the exact character set; only that the stored filename is
`sanitize title ++ "-" ++ demo_id ++ ".mp3"`. -/
def sanitize (s : String) : String :=
  String.mk (s.data.filter (fun c =>
    !(c == '/' || c == '\\' || c == '?' || c == '<' || c == '>' ||
      c == ':' || c == '*' || c == '|' || c.toNat == 34 || c.toNat < 32)))

/-- Reading the chunks of a scalar field in the upload loop: the source runs
`while let Some(chunk) = field.next().await { buf = decode(chunk) }`, i.e.
each chunk OVERWRITES the buffer, so the loop leaves the last chunk (or the
previous buffer content when the part has no chunks). -/
def scalarRead (cur : String) (chunks : List String) : String :=
  chunks.foldl (fun _ c => c) cur

/-- Injected outcomes of the fallible calls made by `upload`:
directory creation, `File::create`, the chunk writes, the store lock, and the
`INSERT` statement. -/
structure UploadEnv where
  dirOk : Bool
  fileCreateOk : Bool
  writeOk : Bool
  lockOk : Bool
  insertOk : Bool
deriving DecidableEq, Repr

inductive UploadRes
  | success (message : String) (demo_id : String) (file_url : String)
  | clientError (body : String)
  | serverError (body : String)
deriving DecidableEq, Repr

structure UploadOut where
  res : UploadRes
  db : DB
  fs : FS
deriving DecidableEq, Repr

/-- The multipart consumption loop of `upload` (src/src/main.rs lines
86-175).  `u`, `a`, `t` are the `user_id` / `artist` / `title` buffers.  On a
part named `file` the handler derives the filename from the CURRENT title
buffer, writes the file, takes the lock, inserts the row and RETURNS the
success response immediately, without consuming the rest of the stream; if the
stream is exhausted without a `file` part it returns 400. -/
def uploadLoop (env : UploadEnv) (demo_id : String) (db : DB) (fs : FS) :
    String → String → String → List MPart → UploadOut
  | _, _, _, [] => ⟨.clientError "File upload failed", db, fs⟩
  | u, a, t, p :: rest =>
    if p.name == "user_id" then
      uploadLoop env demo_id db fs (scalarRead u p.chunks) a t rest
    else if p.name == "artist" then
      uploadLoop env demo_id db fs u (scalarRead a p.chunks) t rest
    else if p.name == "title" then
      uploadLoop env demo_id db fs u a (scalarRead t p.chunks) rest
    else if p.name == "file" then
      let filename := sanitize t ++ "-" ++ demo_id ++ ".mp3"
      if env.fileCreateOk = false then
        ⟨.serverError "Failed to create file", db, fs⟩
      else if env.writeOk = false ∧ p.chunks ≠ [] then
        ⟨.serverError "Error writing file", db, fsWrite fs filename ""⟩
      else
        let fs1 := fsWrite fs filename (String.join p.chunks)
        if env.lockOk = false then
          ⟨.serverError "Failed to lock database", db, fs1⟩
        else if env.insertOk = false then
          ⟨.serverError "Failed to insert track into database", db, fs1⟩
        else
          ⟨.success "File uploaded successfully" demo_id ("/audio/" ++ filename),
           db ++ [⟨a, t, filename, demo_id, u⟩], fs1⟩
    else
      uploadLoop env demo_id db fs u a t rest

/-- Handler `upload` (POST /upload): ensures the upload directory, then runs
the multipart loop with empty scalar buffers.  It never reads request
headers. -/
def upload (env : UploadEnv) (demo_id : String) (db : DB) (fs : FS)
    (parts : List MPart) : UploadOut :=
  if env.dirOk = false then
    ⟨.serverError "Failed to create upload directory", db, fs⟩
  else
    uploadLoop env demo_id db fs "" "" "" parts

/-- Injected outcomes of the fallible calls of `get_tracks`: the store lock,
statement prepare, `query_map`, and the per-row reads (whose `Result` the
source unwraps). -/
structure TracksEnv where
  lockOk : Bool
  prepareOk : Bool
  queryOk : Bool
  rowOk : Bool
deriving DecidableEq, Repr

inductive TracksRes
  | success (tracks : List Track)
  | badRequest (body : String)
  | serverError (body : String)
  | panics
deriving DecidableEq, Repr

/-- Serialization of a stored row as done by both `get_tracks` and
`get_demo_details`: `file_url` is the filename behind the `/audio/` route. -/
def trackOfRow (r : Row) : Track :=
  ⟨r.artist, r.title, "/audio/" ++ r.file_path, r.demo_id⟩

/-- Handler `get_tracks` (GET /tracks), src/src/main.rs lines 178-228.  The
source takes the lock BEFORE looking at the `user_id` header; a missing
header yields 400; the SELECT filters rows by `user_id`; each yielded row
result is `unwrap`ped, so a failing row read panics. -/
def get_tracks (env : TracksEnv) (db : DB) (user_id_header : Option String) :
    TracksRes :=
  if env.lockOk = false then .serverError "Failed to lock database"
  else
    match user_id_header with
    | none => .badRequest "Missing user_id in headers"
    | some uid =>
      if env.prepareOk = false then .serverError "Failed to prepare SQL statement"
      else if env.queryOk = false then .serverError "Failed to query tracks"
      else
        let rows := db.filter (fun r => r.user_id == uid)
        if env.rowOk = false ∧ rows ≠ [] then .panics
        else .success (rows.map trackOfRow)

inductive AudioRes
  | success (bytes : String)
  | notFound (body : String)
  | serverError (body : String)
  | panics
deriving DecidableEq, Repr

/-- Handler `stream_audio` (GET /audio/{filename}), src/src/main.rs lines
231-243: a pure filesystem lookup.  `fsAtCheck` is the directory state at the
`filepath.exists()` call and `fsAtRead` the state at the `fs::read` call,
whose result the source `unwrap`s. -/
def stream_audio (fsAtCheck fsAtRead : FS) (filename : String) : AudioRes :=
  if fsExists fsAtCheck filename then
    match fsRead fsAtRead filename with
    | some b => .success b
    | none => .panics
  else .notFound "File not found"

/-- Injected outcomes of the fallible calls of `delete_audio`:
`fs::remove_file`, the store lock, and the `DELETE` statement. -/
structure DeleteEnv where
  removeOk : Bool
  lockOk : Bool
  deleteOk : Bool
deriving DecidableEq, Repr

inductive DeleteRes
  | success (body : String)
  | notFound (body : String)
  | serverError (body : String)
deriving DecidableEq, Repr

structure DeleteOut where
  res : DeleteRes
  db : DB
  fs : FS
deriving DecidableEq, Repr

/-- Handler `delete_audio` (DELETE /audio/{filename}), src/src/main.rs lines
246-278: if the file is absent respond 404 and touch nothing; otherwise
remove the file first (500 on failure, rows untouched), then delete every row
whose `file_path` equals the filename (500 on lock or statement failure, with
the file already gone). -/
def delete_audio (env : DeleteEnv) (db : DB) (fs : FS) (filename : String) :
    DeleteOut :=
  if fsExists fs filename then
    if env.removeOk = false then
      ⟨.serverError "Failed to delete file", db, fs⟩
    else
      let fs1 := fsRemove fs filename
      if env.lockOk = false then
        ⟨.serverError "Failed to lock database", db, fs1⟩
      else if env.deleteOk = false then
        ⟨.serverError "Failed to delete track from database", db, fs1⟩
      else
        ⟨.success "File and record deleted successfully",
         db.filter (fun r => r.file_path != filename), fs1⟩
  else
    ⟨.notFound "File not found", db, fs⟩

/-- Injected outcomes of the fallible database calls shared by `stream_demo`
and `get_demo_details`: the store lock, statement prepare, and a genuine
`query_row` failure (as opposed to the no-rows case, which both handlers also
receive as an `Err`). -/
structure DemoEnv where
  lockOk : Bool
  prepareOk : Bool
  queryOk : Bool
deriving DecidableEq, Repr

/-- Handler `stream_demo` (GET /demo/{demo_id}), src/src/main.rs lines
280-315: lock and prepare failures give 500; ANY `query_row` error — genuine
failure or no matching row — is answered 404 "Demo not found"; on a match the
file is served like `stream_audio`, with the same existence-check /
`unwrap`ped-read pair (`fsAtCheck` / `fsAtRead`). -/
def stream_demo (env : DemoEnv) (db : DB) (fsAtCheck fsAtRead : FS)
    (demo_id : String) : AudioRes :=
  if env.lockOk = false then .serverError "Failed to lock database"
  else if env.prepareOk = false then .serverError "Failed to prepare SQL statement"
  else if env.queryOk = false then .notFound "Demo not found"
  else
    match db.find? (fun r => r.demo_id == demo_id) with
    | none => .notFound "Demo not found"
    | some r =>
      if fsExists fsAtCheck r.file_path then
        match fsRead fsAtRead r.file_path with
        | some b => .success b
        | none => .panics
      else .notFound "File not found"

inductive DetailsRes
  | success (track : Track)
  | notFound (body : String)
  | panics
deriving DecidableEq, Repr

/-- Handler `get_demo_details` (GET /demo_details/{demo_id}), src/src/main.rs
lines 317-343: the source calls `db.lock().unwrap()` and
`.prepare(..).expect(..)`, so lock poisoning and prepare failure PANIC; any
`query_row` error (genuine failure or no rows) is answered 404. -/
def get_demo_details (env : DemoEnv) (db : DB) (demo_id : String) : DetailsRes :=
  if env.lockOk = false then .panics
  else if env.prepareOk = false then .panics
  else if env.queryOk = false then .notFound "Demo not found"
  else
    match db.find? (fun r => r.demo_id == demo_id) with
    | none => .notFound "Demo not found"
    | some r => .success (trackOfRow r)

/-- All-success upload environment. -/
def uenv0 : UploadEnv := ⟨true, true, true, true, true⟩

/-- All-success tracks environment. -/
def tenv0 : TracksEnv := ⟨true, true, true, true⟩

/-- All-success delete environment. -/
def denv0 : DeleteEnv := ⟨true, true, true⟩

/-- All-success demo environment. -/
def menv0 : DemoEnv := ⟨true, true, true⟩

/-- Value left in the buffer for field `fname` after the upload loop has
consumed the given parts, starting from buffer content `init` (each matching
part is read with the overwriting `scalarRead`). -/
def fieldValFrom (fname : String) : String → List MPart → String
  | init, [] => init
  | init, p :: rest =>
    fieldValFrom fname (if p.name == fname then scalarRead init p.chunks else init) rest

theorem fieldValFrom_absent (f : String) :
    ∀ (parts : List MPart), (∀ p ∈ parts, p.name ≠ f) → ∀ (init : String),
    fieldValFrom f init parts = init := by
  intro parts
  induction parts with
  | nil => intro _ init; rfl
  | cons p rest ih =>
    intro h init
    have hp : p.name ≠ f := h p (List.mem_cons_self p rest)
    have hrest : ∀ q ∈ rest, q.name ≠ f := fun q hq => h q (List.mem_cons_of_mem p hq)
    simp only [fieldValFrom, beq_iff_eq, hp, if_false]
    exact ih hrest init

theorem find_append_of_none {α : Type} (p : α → Bool) :
    ∀ (l1 l2 : List α), (∀ x ∈ l1, p x = false) →
    List.find? p (l1 ++ l2) = List.find? p l2 := by
  intro l1
  induction l1 with
  | nil => intro l2 _; rfl
  | cons x l1 ih =>
    intro l2 h
    have hx : p x = false := h x (List.mem_cons_self x l1)
    have hrest : ∀ y ∈ l1, p y = false := fun y hy => h y (List.mem_cons_of_mem x hy)
    simp only [List.cons_append, List.find?, hx]
    exact ih l2 hrest

theorem fsRead_fsWrite_self (fs : FS) (fn c : String) :
    fsRead (fsWrite fs fn c) fn = some c := by
  simp [fsRead, fsWrite, List.find?]

theorem fsExists_fsWrite_self (fs : FS) (fn c : String) :
    fsExists (fsWrite fs fn c) fn = true := by
  simp [fsExists, fsRead_fsWrite_self]

theorem uploadLoop_no_file (env : UploadEnv) (d : String) (db : DB) (fs : FS) :
    ∀ (parts : List MPart), (∀ p ∈ parts, p.name ≠ "file") → ∀ (u a t : String),
    uploadLoop env d db fs u a t parts =
      ⟨.clientError "File upload failed", db, fs⟩ := by
  intro parts
  induction parts with
  | nil => intro _ u a t; rfl
  | cons p rest ih =>
    intro h u a t
    have hp : p.name ≠ "file" := h p (List.mem_cons_self p rest)
    have hrest : ∀ q ∈ rest, q.name ≠ "file" := fun q hq => h q (List.mem_cons_of_mem p hq)
    by_cases h1 : p.name = "user_id"
    · simp only [uploadLoop, beq_iff_eq, h1, if_true, reduceIte]
      exact ih hrest (scalarRead u p.chunks) a t
    · by_cases h2 : p.name = "artist"
      · simp only [uploadLoop, beq_iff_eq, h1, h2, if_false, if_true, reduceIte]
        exact ih hrest u (scalarRead a p.chunks) t
      · by_cases h3 : p.name = "title"
        · simp only [uploadLoop, beq_iff_eq, h1, h2, h3, if_false, if_true, reduceIte]
          exact ih hrest u a (scalarRead t p.chunks)
        · simp only [uploadLoop, beq_iff_eq, h1, h2, h3, hp, if_false, reduceIte]
          exact ih hrest u a t

theorem uploadLoop_file_spec (env : UploadEnv) (d : String) (db : DB) (fs : FS)
    (fileP : MPart) (post : List MPart) (hf : fileP.name = "file")
    (hfc : env.fileCreateOk = true) (hw : env.writeOk = true)
    (hl : env.lockOk = true) (hi : env.insertOk = true) :
    ∀ (pre : List MPart), (∀ p ∈ pre, p.name ≠ "file") → ∀ (u a t : String),
    uploadLoop env d db fs u a t (pre ++ fileP :: post) =
      ⟨.success "File uploaded successfully" d
         ("/audio/" ++ (sanitize (fieldValFrom "title" t pre) ++ "-" ++ d ++ ".mp3")),
       db ++ [⟨fieldValFrom "artist" a pre, fieldValFrom "title" t pre,
              sanitize (fieldValFrom "title" t pre) ++ "-" ++ d ++ ".mp3", d,
              fieldValFrom "user_id" u pre⟩],
       fsWrite fs (sanitize (fieldValFrom "title" t pre) ++ "-" ++ d ++ ".mp3")
         (String.join fileP.chunks)⟩ := by
  intro pre
  induction pre with
  | nil =>
    intro _ u a t
    simp only [List.nil_append, uploadLoop, fieldValFrom, beq_iff_eq, hf, hfc, hw]
    simp [hl, hi]
  | cons p rest ih =>
    intro h u a t
    have hp : p.name ≠ "file" := h p (List.mem_cons_self p rest)
    have hrest : ∀ q ∈ rest, q.name ≠ "file" := fun q hq => h q (List.mem_cons_of_mem p hq)
    by_cases h1 : p.name = "user_id"
    · simp only [List.cons_append, uploadLoop, fieldValFrom, beq_iff_eq, h1, if_true, reduceIte]
      have h1a : ("user_id" : String) ≠ "artist" := by decide
      have h1t : ("user_id" : String) ≠ "title" := by decide
      simp only [h1a, h1t, if_false, if_true, reduceIte]
      exact ih hrest (scalarRead u p.chunks) a t
    · by_cases h2 : p.name = "artist"
      · simp only [List.cons_append, uploadLoop, fieldValFrom, beq_iff_eq, h1, h2,
          if_false, if_true, reduceIte]
        have h2u : ("artist" : String) ≠ "user_id" := by decide
        have h2t : ("artist" : String) ≠ "title" := by decide
        simp only [h2u, h2t, if_false, if_true, reduceIte]
        exact ih hrest u (scalarRead a p.chunks) t
      · by_cases h3 : p.name = "title"
        · simp only [List.cons_append, uploadLoop, fieldValFrom, beq_iff_eq, h1, h2, h3,
            if_false, if_true, reduceIte]
          have h3u : ("title" : String) ≠ "user_id" := by decide
          have h3a : ("title" : String) ≠ "artist" := by decide
          simp only [h3u, h3a, if_false, if_true, reduceIte]
          exact ih hrest u a (scalarRead t p.chunks)
        · simp only [List.cons_append, uploadLoop, fieldValFrom, beq_iff_eq, h1, h2, h3, hp,
            if_false, reduceIte]
          exact ih hrest u a t

/-- C1 counterexample: the stream `[file "X", artist "Jane"]` is a multipart
upload stream with a file part in which the scalar field `artist` arrives
after the file part; the upload succeeds, but the inserted row has
`artist = ""`, not "Jane" — so the insert and the success response do NOT
wait for exhaustion of the stream, and fields after the file part are not
reflected in the row, refuting the claim as stated. -/
theorem C1_counterexample :
    upload uenv0 "d0" [] [] [⟨"file", ["X"]⟩, ⟨"artist", ["Jane"]⟩] =
      ⟨.success "File uploaded successfully" "d0" "/audio/-d0.mp3",
       [⟨"", "", "-d0.mp3", "d0", ""⟩], [("-d0.mp3", "X")]⟩ := by decide

/-- C1 amended: the upload operation inserts the metadata row and sends its
success response as soon as the first `file` part has been consumed, without
touching the rest of the stream (`post` does not occur in the result), and
only scalar fields arriving BEFORE the file part are reflected in the
inserted row and in the derived `file_path`. -/
theorem C1_amended (env : UploadEnv) (hdir : env.dirOk = true)
    (hfc : env.fileCreateOk = true) (hw : env.writeOk = true)
    (hl : env.lockOk = true) (hi : env.insertOk = true)
    (d : String) (db : DB) (fs : FS) (pre : List MPart) (fileP : MPart)
    (post : List MPart) (hpre : ∀ p ∈ pre, p.name ≠ "file")
    (hf : fileP.name = "file") :
    upload env d db fs (pre ++ fileP :: post) =
      ⟨.success "File uploaded successfully" d
         ("/audio/" ++ (sanitize (fieldValFrom "title" "" pre) ++ "-" ++ d ++ ".mp3")),
       db ++ [⟨fieldValFrom "artist" "" pre, fieldValFrom "title" "" pre,
              sanitize (fieldValFrom "title" "" pre) ++ "-" ++ d ++ ".mp3", d,
              fieldValFrom "user_id" "" pre⟩],
       fsWrite fs (sanitize (fieldValFrom "title" "" pre) ++ "-" ++ d ++ ".mp3")
         (String.join fileP.chunks)⟩ := by
  simp only [upload, hdir]
  simp only [Bool.true_eq_false, if_false, reduceIte]
  exact uploadLoop_file_spec env d db fs fileP post hf hfc hw hl hi pre hpre "" "" ""

/-- C1 amended witness: a concrete instance — artist and title before the
file part, a trailing part after it that is ignored. -/
theorem C1_amended_witness :
    upload uenv0 "d9" [] [] [⟨"artist", ["Jane"]⟩, ⟨"title", ["Song"]⟩,
        ⟨"file", ["ID3"]⟩, ⟨"user_id", ["alice"]⟩] =
      ⟨.success "File uploaded successfully" "d9" "/audio/Song-d9.mp3",
       [⟨"Jane", "Song", "Song-d9.mp3", "d9", ""⟩], [("Song-d9.mp3", "ID3")]⟩ := by
  have h := C1_amended uenv0 rfl rfl rfl rfl rfl "d9" [] []
    [⟨"artist", ["Jane"]⟩, ⟨"title", ["Song"]⟩] ⟨"file", ["ID3"]⟩
    [⟨"user_id", ["alice"]⟩] (by intro p hp; fin_cases hp <;> decide) rfl
  rw [show ([⟨"artist", ["Jane"]⟩, ⟨"title", ["Song"]⟩] ++
      ⟨"file", ["ID3"]⟩ :: [⟨"user_id", ["alice"]⟩] : List MPart) =
      [⟨"artist", ["Jane"]⟩, ⟨"title", ["Song"]⟩, ⟨"file", ["ID3"]⟩,
       ⟨"user_id", ["alice"]⟩] from rfl] at h
  rw [h]
  decide

/-- C5: evaluation of the code at the failing input.  The scalar part
`artist` is delivered in two chunks "Ja", "ne"; the claim (and §4.2 of the
spec) says the recorded value is the concatenation "Jane", but the code
overwrites the buffer on every chunk and records only the last chunk,
"ne".  This contradicts the evident intent of the field-buffering loop
(chunk boundaries are transport artifacts), so it is a bug in the code. -/
theorem C5_code_behavior_at_failing_input :
    (upload uenv0 "d0" [] [] [⟨"artist", ["Ja", "ne"]⟩, ⟨"file", ["X"]⟩]).db =
      [⟨"ne", "", "-d0.mp3", "d0", ""⟩] := by decide

/-- C6: a multipart stream that ends without ever producing a part named
`file` makes `upload` answer 400 "File upload failed" with the metadata
store and the filesystem unchanged (no file written, no row inserted). -/
theorem C6_no_file_part_bad_request (env : UploadEnv) (hdir : env.dirOk = true)
    (d : String) (db : DB) (fs : FS) (parts : List MPart)
    (hnf : ∀ p ∈ parts, p.name ≠ "file") :
    upload env d db fs parts = ⟨.clientError "File upload failed", db, fs⟩ := by
  simp only [upload, hdir, Bool.true_eq_false, if_false, reduceIte]
  exact uploadLoop_no_file env d db fs parts hnf "" "" ""

/-- C6 witness: a stream with scalar parts and an unknown part but no file
part yields 400 and leaves a nonempty store and filesystem untouched. -/
theorem C6_no_file_part_bad_request_witness :
    upload uenv0 "d1" [⟨"a", "t", "f.mp3", "d0", "u"⟩] [("f.mp3", "X")]
        [⟨"artist", ["Jane"]⟩, ⟨"other", ["zz"]⟩, ⟨"title", ["Song"]⟩] =
      ⟨.clientError "File upload failed",
       [⟨"a", "t", "f.mp3", "d0", "u"⟩], [("f.mp3", "X")]⟩ :=
  C6_no_file_part_bad_request uenv0 rfl "d1" [⟨"a", "t", "f.mp3", "d0", "u"⟩]
    [("f.mp3", "X")] [⟨"artist", ["Jane"]⟩, ⟨"other", ["zz"]⟩, ⟨"title", ["Song"]⟩]
    (by intro p hp; fin_cases hp <;> decide)

/-- C2 counterexample: a poisoned store lock in `get_demo_details` makes the
handler panic on `db.lock().unwrap()` instead of answering 500, refuting the
claim that every database failure (including a poisoned store lock) in any
operation is converted to a 500 response and never causes a panic. -/
theorem C2_counterexample :
    get_demo_details ⟨false, true, true⟩ [] "d0" = .panics := by decide

/-- C2 amended: database failures are converted to 500 in `upload` (lock,
insert), `get_tracks` (lock, prepare, query_map), `delete_audio` (lock,
DELETE statement) and `stream_demo` (lock, prepare); however,
`get_demo_details` PANICS on a poisoned lock or a prepare failure, a
`query_row` failure in `stream_demo` or `get_demo_details` is reported as
404 "Demo not found" rather than 500, and `get_tracks` PANICS on a per-row
read failure when at least one row matches. -/
theorem C2_amended (db : DB) (fs : FS) (d uid fn : String) (cs : List String)
    (rest : List MPart)
    (hex : fsExists fs fn = true)
    (hrow : db.filter (fun r => r.user_id == uid) ≠ []) :
    ((upload ⟨true, true, true, false, true⟩ d db fs (⟨"file", cs⟩ :: rest)).res =
      .serverError "Failed to lock database") ∧
    ((upload ⟨true, true, true, true, false⟩ d db fs (⟨"file", cs⟩ :: rest)).res =
      .serverError "Failed to insert track into database") ∧
    (get_tracks ⟨false, true, true, true⟩ db (some uid) =
      .serverError "Failed to lock database") ∧
    (get_tracks ⟨true, false, true, true⟩ db (some uid) =
      .serverError "Failed to prepare SQL statement") ∧
    (get_tracks ⟨true, true, false, true⟩ db (some uid) =
      .serverError "Failed to query tracks") ∧
    (get_tracks ⟨true, true, true, false⟩ db (some uid) = .panics) ∧
    ((delete_audio ⟨true, false, true⟩ db fs fn).res =
      .serverError "Failed to lock database") ∧
    ((delete_audio ⟨true, true, false⟩ db fs fn).res =
      .serverError "Failed to delete track from database") ∧
    (stream_demo ⟨false, true, true⟩ db fs fs d =
      .serverError "Failed to lock database") ∧
    (stream_demo ⟨true, false, true⟩ db fs fs d =
      .serverError "Failed to prepare SQL statement") ∧
    (stream_demo ⟨true, true, false⟩ db fs fs d = .notFound "Demo not found") ∧
    (get_demo_details ⟨false, true, true⟩ db d = .panics) ∧
    (get_demo_details ⟨true, false, true⟩ db d = .panics) ∧
    (get_demo_details ⟨true, true, false⟩ db d = .notFound "Demo not found") := by
  refine ⟨?_, ?_, by simp [get_tracks], by simp [get_tracks], by simp [get_tracks],
    ?_, ?_, ?_, by simp [stream_demo], by simp [stream_demo], by simp [stream_demo],
    by simp [get_demo_details], by simp [get_demo_details], by simp [get_demo_details]⟩
  · simp [upload, uploadLoop]
  · simp [upload, uploadLoop]
  · simp [get_tracks, hrow, List.isEmpty_iff]
  · simp [delete_audio, hex]
  · simp [delete_audio, hex]

/-- C2 amended witness: the amended behavior at a one-row store whose row
matches the queried user and a one-file directory containing the deleted
filename. -/
theorem C2_amended_witness :
    get_tracks ⟨true, true, true, false⟩ [⟨"a", "t", "f.mp3", "d0", "u"⟩]
        (some "u") = .panics ∧
    (delete_audio ⟨true, false, true⟩ [⟨"a", "t", "f.mp3", "d0", "u"⟩]
        [("f.mp3", "X")] "f.mp3").res = .serverError "Failed to lock database" := by
  have h := C2_amended [⟨"a", "t", "f.mp3", "d0", "u"⟩] [("f.mp3", "X")]
    "d0" "u" "f.mp3" ["X"] [] (by decide) (by decide)
  exact ⟨h.2.2.2.2.2.1, h.2.2.2.2.2.2.1⟩

/-- C4: `delete_audio` on a filename with no file on disk answers 404 and
changes neither the store nor the filesystem; on an existing file it deletes
the file first — a filesystem failure aborts with 500 leaving every metadata
row (and the file) intact — and only then deletes exactly the metadata rows
whose `file_path` equals the filename: every matching row is gone from the
resulting store and every non-matching row survives. -/
theorem C4_delete_audio_spec (env : DeleteEnv) (db : DB) (fs : FS) (fn : String) :
    (fsExists fs fn = false →
      delete_audio env db fs fn = ⟨.notFound "File not found", db, fs⟩) ∧
    (fsExists fs fn = true → env.removeOk = false →
      delete_audio env db fs fn = ⟨.serverError "Failed to delete file", db, fs⟩) ∧
    (fsExists fs fn = true → env.removeOk = true → env.lockOk = true →
      env.deleteOk = true →
      delete_audio env db fs fn =
        ⟨.success "File and record deleted successfully",
         db.filter (fun r => r.file_path != fn), fsRemove fs fn⟩ ∧
      (∀ r ∈ db, r.file_path = fn → r ∉ (delete_audio env db fs fn).db) ∧
      (∀ r ∈ db, r.file_path ≠ fn → r ∈ (delete_audio env db fs fn).db)) := by
  refine ⟨fun h => by simp [delete_audio, h], fun h hr => by simp [delete_audio, h, hr],
    fun h hr hl hd => ⟨by simp [delete_audio, h, hr, hl, hd], ?_, ?_⟩⟩
  · intro r hrdb hrfn
    simp [delete_audio, h, hr, hl, hd, List.mem_filter, hrfn]
  · intro r hrdb hrfn
    simp [delete_audio, h, hr, hl, hd, List.mem_filter, hrdb, hrfn]

/-- C4 witness: the three branches at concrete inputs — a missing file, a
filesystem failure, and a successful delete removing exactly the matching
row of a two-row store. -/
theorem C4_delete_audio_spec_witness :
    delete_audio denv0 [⟨"a", "t", "f.mp3", "d0", "u"⟩] [] "f.mp3" =
      ⟨.notFound "File not found", [⟨"a", "t", "f.mp3", "d0", "u"⟩], []⟩ ∧
    delete_audio ⟨false, true, true⟩ [⟨"a", "t", "f.mp3", "d0", "u"⟩]
        [("f.mp3", "X")] "f.mp3" =
      ⟨.serverError "Failed to delete file",
       [⟨"a", "t", "f.mp3", "d0", "u"⟩], [("f.mp3", "X")]⟩ ∧
    delete_audio denv0 [⟨"a", "t", "f.mp3", "d0", "u"⟩, ⟨"b", "s", "g.mp3", "d1", "v"⟩]
        [("f.mp3", "X"), ("g.mp3", "Y")] "f.mp3" =
      ⟨.success "File and record deleted successfully",
       [⟨"b", "s", "g.mp3", "d1", "v"⟩], [("g.mp3", "Y")]⟩ := by
  refine ⟨(C4_delete_audio_spec denv0 [⟨"a", "t", "f.mp3", "d0", "u"⟩] [] "f.mp3").1
      (by decide),
    (C4_delete_audio_spec ⟨false, true, true⟩ [⟨"a", "t", "f.mp3", "d0", "u"⟩]
      [("f.mp3", "X")] "f.mp3").2.1 (by decide) rfl, ?_⟩
  have h := (C4_delete_audio_spec denv0
    [⟨"a", "t", "f.mp3", "d0", "u"⟩, ⟨"b", "s", "g.mp3", "d1", "v"⟩]
    [("f.mp3", "X"), ("g.mp3", "Y")] "f.mp3").2.2 (by decide) rfl rfl rfl
  rw [h.1]
  decide

/-- C3 counterexample: an upload whose stream carries artist "Jane" AFTER the
file part succeeds (200 with a demo_id), yet `get_demo_details` on that
demo_id returns artist "" and title "" — not the artist that was uploaded —
refuting the round-trip claim for every successful upload. -/
theorem C3_counterexample :
    (upload uenv0 "d0" [] [] [⟨"file", ["ID3"]⟩, ⟨"artist", ["Jane"]⟩]).res =
      .success "File uploaded successfully" "d0" "/audio/-d0.mp3" ∧
    get_demo_details menv0
        (upload uenv0 "d0" [] [] [⟨"file", ["ID3"]⟩, ⟨"artist", ["Jane"]⟩]).db "d0" =
      .success ⟨"", "", "/audio/-d0.mp3", "d0"⟩ := by decide

/-- C3 amended: for an upload whose `user_id`, `artist` and `title` parts
each arrive (as one chunk) BEFORE the file part, with a demo_id fresh for
the store, `get_demo_details` on the returned demo_id yields exactly the
uploaded artist and title and a `file_url` equal to "/audio/" ++ filename,
and `stream_audio` on that filename returns bytes identical to the uploaded
file content (the concatenation of the file part's chunks). -/
theorem C3_amended (d u a t : String) (cs : List String) (db : DB) (fs : FS)
    (hfresh : ∀ r ∈ db, r.demo_id ≠ d) :
    (upload uenv0 d db fs
        [⟨"user_id", [u]⟩, ⟨"artist", [a]⟩, ⟨"title", [t]⟩, ⟨"file", cs⟩]).res =
      .success "File uploaded successfully" d
        ("/audio/" ++ (sanitize t ++ "-" ++ d ++ ".mp3")) ∧
    get_demo_details menv0
        (upload uenv0 d db fs
          [⟨"user_id", [u]⟩, ⟨"artist", [a]⟩, ⟨"title", [t]⟩, ⟨"file", cs⟩]).db d =
      .success ⟨a, t, "/audio/" ++ (sanitize t ++ "-" ++ d ++ ".mp3"), d⟩ ∧
    stream_audio
        (upload uenv0 d db fs
          [⟨"user_id", [u]⟩, ⟨"artist", [a]⟩, ⟨"title", [t]⟩, ⟨"file", cs⟩]).fs
        (upload uenv0 d db fs
          [⟨"user_id", [u]⟩, ⟨"artist", [a]⟩, ⟨"title", [t]⟩, ⟨"file", cs⟩]).fs
        (sanitize t ++ "-" ++ d ++ ".mp3") =
      .success (String.join cs) := by
  have e : upload uenv0 d db fs
      [⟨"user_id", [u]⟩, ⟨"artist", [a]⟩, ⟨"title", [t]⟩, ⟨"file", cs⟩] =
      ⟨.success "File uploaded successfully" d
         ("/audio/" ++ (sanitize t ++ "-" ++ d ++ ".mp3")),
       db ++ [⟨a, t, sanitize t ++ "-" ++ d ++ ".mp3", d, u⟩],
       fsWrite fs (sanitize t ++ "-" ++ d ++ ".mp3") (String.join cs)⟩ := by
    simp [upload, uploadLoop, uenv0, scalarRead]
  rw [e]
  have hbeq : ∀ r ∈ db, (r.demo_id == d) = false := by
    intro r hr
    simp [hfresh r hr]
  refine ⟨rfl, ?_, ?_⟩
  · simp only [get_demo_details, menv0, Bool.true_eq_false, if_false, reduceIte]
    rw [find_append_of_none _ db _ hbeq]
    simp [List.find?, trackOfRow]
  · simp [stream_audio, fsExists_fsWrite_self, fsRead_fsWrite_self]

/-- C3 amended witness: a concrete round trip next to an unrelated existing
row; the uploaded bytes "ID" ++ "3" come back from `stream_audio`. -/
theorem C3_amended_witness :
    get_demo_details menv0
        (upload uenv0 "d2" [⟨"a", "t", "f.mp3", "d0", "u"⟩] []
          [⟨"user_id", ["alice"]⟩, ⟨"artist", ["Jane"]⟩, ⟨"title", ["Song"]⟩,
           ⟨"file", ["ID", "3"]⟩]).db "d2" =
      .success ⟨"Jane", "Song", "/audio/" ++ (sanitize "Song" ++ "-" ++ "d2" ++ ".mp3"),
                "d2"⟩ ∧
    stream_audio
        (upload uenv0 "d2" [⟨"a", "t", "f.mp3", "d0", "u"⟩] []
          [⟨"user_id", ["alice"]⟩, ⟨"artist", ["Jane"]⟩, ⟨"title", ["Song"]⟩,
           ⟨"file", ["ID", "3"]⟩]).fs
        (upload uenv0 "d2" [⟨"a", "t", "f.mp3", "d0", "u"⟩] []
          [⟨"user_id", ["alice"]⟩, ⟨"artist", ["Jane"]⟩, ⟨"title", ["Song"]⟩,
           ⟨"file", ["ID", "3"]⟩]).fs
        (sanitize "Song" ++ "-" ++ "d2" ++ ".mp3") =
      .success (String.join ["ID", "3"]) := by
  have h := C3_amended "d2" "alice" "Jane" "Song" ["ID", "3"]
    [⟨"a", "t", "f.mp3", "d0", "u"⟩] [] (by decide)
  exact ⟨h.2.1, h.2.2⟩

/-- C7: `get_tracks` answers 400 when the `user_id` header is absent, and
with the header present returns exactly the stored rows whose `user_id`
equals the supplied one (in storage order, serialized by `trackOfRow`) —
every matching row and no other. -/
theorem C7_list_tracks_spec (env : TracksEnv) (db : DB) (uid : String)
    (hl : env.lockOk = true) (hp : env.prepareOk = true)
    (hq : env.queryOk = true) (hr : env.rowOk = true) :
    get_tracks env db none = .badRequest "Missing user_id in headers" ∧
    get_tracks env db (some uid) =
      .success ((db.filter (fun r => r.user_id == uid)).map trackOfRow) := by
  constructor
  · simp [get_tracks, hl]
  · simp [get_tracks, hl, hp, hq, hr]

/-- C7 witness: a two-row store with distinct owners; the matching row is
returned and the other is not; a missing header gives 400. -/
theorem C7_list_tracks_spec_witness :
    get_tracks tenv0 [⟨"a", "t", "f.mp3", "d0", "u"⟩, ⟨"b", "s", "g.mp3", "d1", "v"⟩]
        none = .badRequest "Missing user_id in headers" ∧
    get_tracks tenv0 [⟨"a", "t", "f.mp3", "d0", "u"⟩, ⟨"b", "s", "g.mp3", "d1", "v"⟩]
        (some "u") = .success [⟨"a", "t", "/audio/f.mp3", "d0"⟩] := by
  have h := C7_list_tracks_spec tenv0
    [⟨"a", "t", "f.mp3", "d0", "u"⟩, ⟨"b", "s", "g.mp3", "d1", "v"⟩] "u"
    rfl rfl rfl rfl
  refine ⟨h.1, ?_⟩
  rw [h.2]
  decide

theorem uploadLoop_success_shape (env : UploadEnv) (d : String) (db : DB) (fs : FS) :
    ∀ (parts : List MPart) (u a t m di fu : String),
    (uploadLoop env d db fs u a t parts).res = .success m di fu →
    ∃ row : Row,
      (uploadLoop env d db fs u a t parts).db = db ++ [row] ∧
      row.file_path = sanitize row.title ++ "-" ++ d ++ ".mp3" ∧
      row.demo_id = d ∧ di = d ∧ fu = "/audio/" ++ row.file_path ∧
      m = "File uploaded successfully" := by
  intro parts
  induction parts with
  | nil => intro u a t m di fu h; simp [uploadLoop] at h
  | cons p rest ih =>
    intro u a t m di fu h
    by_cases h1 : p.name = "user_id"
    · simp only [uploadLoop, beq_iff_eq, h1, if_true, reduceIte] at h ⊢
      exact ih (scalarRead u p.chunks) a t m di fu h
    · by_cases h2 : p.name = "artist"
      · simp only [uploadLoop, beq_iff_eq, h1, h2, if_false, if_true, reduceIte] at h ⊢
        exact ih u (scalarRead a p.chunks) t m di fu h
      · by_cases h3 : p.name = "title"
        · simp only [uploadLoop, beq_iff_eq, h1, h2, h3, if_false, if_true,
            reduceIte] at h ⊢
          exact ih u a (scalarRead t p.chunks) m di fu h
        · by_cases h4 : p.name = "file"
          · simp only [uploadLoop, beq_iff_eq, h1, h2, h3, h4, if_false, if_true,
              reduceIte] at h ⊢
            by_cases hfc : env.fileCreateOk = false
            · simp [hfc] at h
            · simp only [hfc, if_false, reduceIte] at h ⊢
              by_cases hw : env.writeOk = false ∧ p.chunks ≠ []
              · simp [hw] at h
              · simp only [hw, if_false, reduceIte] at h ⊢
                by_cases hl : env.lockOk = false
                · simp [hl] at h
                · simp only [hl, if_false, reduceIte] at h ⊢
                  by_cases hi : env.insertOk = false
                  · simp [hi] at h
                  · simp [hi] at h ⊢
                    exact ⟨h.2.1.symm, h.2.2.symm, h.1.symm⟩
          · simp only [uploadLoop, beq_iff_eq, h1, h2, h3, h4, if_false,
              reduceIte] at h ⊢
            exact ih u a t m di fu h

/-- C8: for EVERY successful upload (any stream, any environment), the single
inserted row satisfies `file_path = sanitize title ++ "-" ++ demo_id ++
".mp3"` (the extension is always mp3, whatever the uploaded content), the
returned demo_id is the minted one, and the response `file_url` is
"/audio/" ++ file_path. -/
theorem C8_file_path_format (env : UploadEnv) (d : String) (db : DB) (fs : FS)
    (parts : List MPart) (m di fu : String)
    (h : (upload env d db fs parts).res = .success m di fu) :
    ∃ row : Row,
      (upload env d db fs parts).db = db ++ [row] ∧
      row.file_path = sanitize row.title ++ "-" ++ d ++ ".mp3" ∧
      row.demo_id = d ∧ di = d ∧ fu = "/audio/" ++ row.file_path := by
  by_cases hdir : env.dirOk = false
  · simp [upload, hdir] at h
  · simp only [upload, hdir, if_false, reduceIte] at h ⊢
    obtain ⟨row, e1, e2, e3, e4, e5, _⟩ :=
      uploadLoop_success_shape env d db fs parts "" "" "" m di fu h
    exact ⟨row, e1, e2, e3, e4, e5⟩

/-- C8 witness: a successful concrete upload; the returned file_url is
"/audio/Song-d3.mp3" and the stored row satisfies the format equations. -/
theorem C8_file_path_format_witness :
    ∃ row : Row,
      (upload uenv0 "d3" [] [] [⟨"title", ["Song"]⟩, ⟨"file", ["B"]⟩]).db =
        [] ++ [row] ∧
      row.file_path = sanitize row.title ++ "-" ++ "d3" ++ ".mp3" ∧
      row.demo_id = "d3" ∧ "d3" = "d3" ∧
      "/audio/Song-d3.mp3" = "/audio/" ++ row.file_path :=
  C8_file_path_format uenv0 "d3" [] [] [⟨"title", ["Song"]⟩, ⟨"file", ["B"]⟩]
    "File uploaded successfully" "d3" "/audio/Song-d3.mp3" (by decide)

/-- C9: an upload whose stream contains no `user_id` part before the file
part still succeeds with 200 and inserts a row whose `user_id` is the empty
string: `upload` takes no request headers in its signature and imposes no
presence requirement on `user_id`, `artist` or `title`. -/
theorem C9_no_user_id_part (env : UploadEnv) (hdir : env.dirOk = true)
    (hfc : env.fileCreateOk = true) (hw : env.writeOk = true)
    (hl : env.lockOk = true) (hi : env.insertOk = true)
    (d : String) (db : DB) (fs : FS) (pre : List MPart) (fileP : MPart)
    (post : List MPart) (hpre : ∀ p ∈ pre, p.name ≠ "file")
    (hnouid : ∀ p ∈ pre, p.name ≠ "user_id") (hf : fileP.name = "file") :
    ∃ fu row,
      (upload env d db fs (pre ++ fileP :: post)).res =
        .success "File uploaded successfully" d fu ∧
      (upload env d db fs (pre ++ fileP :: post)).db = db ++ [row] ∧
      row.user_id = "" := by
  have e2 : upload env d db fs (pre ++ fileP :: post) =
      uploadLoop env d db fs "" "" "" (pre ++ fileP :: post) := by
    simp [upload, hdir]
  rw [e2, uploadLoop_file_spec env d db fs fileP post hf hfc hw hl hi pre hpre "" "" ""]
  exact ⟨_, _, rfl, rfl, fieldValFrom_absent "user_id" pre hnouid ""⟩

/-- C9 witness: an upload supplying only artist and file succeeds and stores
`user_id = ""`. -/
theorem C9_no_user_id_part_witness :
    ∃ fu row,
      (upload uenv0 "d4" [] [] ([⟨"artist", ["Jane"]⟩] ++ ⟨"file", ["B"]⟩ :: [])).res =
        .success "File uploaded successfully" "d4" fu ∧
      (upload uenv0 "d4" [] [] ([⟨"artist", ["Jane"]⟩] ++ ⟨"file", ["B"]⟩ :: [])).db =
        [] ++ [row] ∧
      row.user_id = "" :=
  C9_no_user_id_part uenv0 rfl rfl rfl rfl rfl "d4" [] [] [⟨"artist", ["Jane"]⟩]
    ⟨"file", ["B"]⟩ [] (by decide) (by decide) rfl

/-- C10: in `stream_audio` and `stream_demo`, when the target file exists at
the existence check but the subsequent read of its bytes fails (the file is
gone at the read observation), the handler panics on the unwrapped read
result; it returns no error response. -/
theorem C10_read_after_check_panics (fsAtCheck fsAtRead : FS) (db : DB)
    (r : Row) (d : String)
    (h1 : fsExists fsAtCheck r.file_path = true)
    (h2 : fsRead fsAtRead r.file_path = none)
    (hdb : db.find? (fun x => x.demo_id == d) = some r) :
    stream_audio fsAtCheck fsAtRead r.file_path = .panics ∧
    stream_demo menv0 db fsAtCheck fsAtRead d = .panics := by
  constructor
  · simp [stream_audio, h1, h2]
  · simp [stream_demo, menv0, hdb, h1, h2]

/-- C10 witness: the file is present at the check and absent at the read;
both handlers panic. -/
theorem C10_read_after_check_panics_witness :
    stream_audio [("f.mp3", "X")] [] "f.mp3" = .panics ∧
    stream_demo menv0 [⟨"a", "t", "f.mp3", "d0", "u"⟩] [("f.mp3", "X")] [] "d0" =
      .panics :=
  C10_read_after_check_panics [("f.mp3", "X")] [] [⟨"a", "t", "f.mp3", "d0", "u"⟩]
    ⟨"a", "t", "f.mp3", "d0", "u"⟩ "d0" (by decide) (by decide) (by decide)
